import Mathlib

/-!
Verification development for the SoundJS playback core.

The development shallowly embeds two JavaScript source units:

* `AbstractSoundInstance` (file `part_000`): the per-playback-session state
  machine (play / pause / stop / volume / pan / position / loop / mute and the
  facade callbacks `_beginPlaying`, `_interrupt`, `_handleSoundComplete`).
* `FlashAudioLoader` (file `part_001`): the loader with its static pending
  queue (`_preloadInstances`, `setFlash`, `load`) and `handleProgress`.

JavaScript numbers are modelled as rationals (`ℚ`) where the code does
arithmetic; where the code's behaviour hinges on JavaScript value coercions
(`value || 0`, `value == null`, `value !== true`), a dedicated value type
`JSVal` models the relevant value universe, and `JSNum` models the result of
division including the `total = 0` cases.  State mutation becomes explicit
state passing; `_sendEvent` dispatches and facade calls
(`Sound._playInstance`, `Sound._playFinished`) are collected in an effect
list.  The plugin hook methods (`_updateVolume`, `_updatePan`, ...) are empty
in this class ("plugin specific code" stubs) and therefore contribute no
state change or event.  We embed the getter/setter path
(`createjs.definePropertySupported` true), which the spec identifies with the
`getX`/`setX` methods.
-/

namespace SoundJS

/-- Play states, the `createjs.Sound.PLAY_*` constants plus the constructor
default `null` (`this.playState = null`). -/
inductive PlayState
  | pnull
  | succeeded
  | interrupted
  | failed
  | finished
deriving DecidableEq, Repr

/-- Observable effects of a session operation, in emission order: the five
documented events dispatched through `_sendEvent`, and the two calls into the
`Sound` facade. -/
inductive Eff
  | succeededEvt
  | interruptedEvt
  | failedEvt
  | loopEvt
  | completeEvt
  | playFinishedCall
  | playInstanceCall
deriving DecidableEq, Repr

/-- The fields of an `AbstractSoundInstance` (file `part_000`): public
properties `src`, `uniqueId`, `playState`, `delayTimeoutId`, private
properties `_startTime`, `_volume`, `_pan`, `_duration`, `_position`,
`_loop`, `_muted`, `_paused`. -/
structure SoundState where
  src : String
  uniqueId : Int
  playState : PlayState
  delayTimeoutId : Option Nat
  startTime : ℚ
  volume : ℚ
  pan : ℚ
  duration : ℚ
  position : ℚ
  loop : Int
  muted : Bool
  paused : Bool
deriving DecidableEq, Repr

/-- JavaScript `value || 0` restricted to numeric values: `0` (the only falsy
finite number) maps to `0`, every other number is returned unchanged. -/
def jsOrZeroQ (v : ℚ) : ℚ := if v = 0 then 0 else v

/-- JavaScript `Math.max(lo, Math.min(hi, v))` on finite numbers. -/
def clampQ (lo hi v : ℚ) : ℚ := max lo (min hi v)

/-- Constructor `AbstractSoundInstance(src, startTime, duration)`:
`this.src = src; this.uniqueId = -1; this.playState = null;
this.delayTimeoutId = null; this._startTime = startTime || 0;
this._volume = 1; this._pan = 0; this._duration = duration || 0;
this._position = 0; this._loop = 0; this._muted = false;
this._paused = false`. -/
def mkInstance (src : String) (startTime duration : ℚ) : SoundState :=
  { src := src
    uniqueId := -1
    playState := PlayState.pnull
    delayTimeoutId := none
    startTime := jsOrZeroQ startTime
    volume := 1
    pan := 0
    duration := jsOrZeroQ duration
    position := 0
    loop := 0
    muted := false
    paused := false }

/-- Method `_cleanUp`: `clearTimeout(this.delayTimeoutId)` then
`createjs.Sound._playFinished(this)`. -/
def cleanUp (s : SoundState) : SoundState × List Eff :=
  ({ s with delayTimeoutId := none }, [Eff.playFinishedCall])

/-- Method `setVolume(value)`: `this._volume = Math.max(0, Math.min(1, value))`;
the subsequent `_updateVolume` hook (guarded by `!this._muted`) is a plugin
stub with no effect on this state. -/
def setVolume (s : SoundState) (value : ℚ) : SoundState :=
  { s with volume := clampQ 0 1 value }

/-- The `volume` property setter: `this._volume = Math.max(0, Math.min(1,
value))`; the mute check `if(this._mute) return` reads the nonexistent field
`_mute` and only gates the (empty) `_updateVolume` hook. -/
def volumeSet (s : SoundState) (value : ℚ) : SoundState :=
  { s with volume := clampQ 0 1 value }

/-- Method `setPan(value)`: `this._pan = Math.max(-1, Math.min(1, value))`. -/
def setPan (s : SoundState) (value : ℚ) : SoundState :=
  { s with pan := clampQ (-1) 1 value }

/-- The `pan` property setter, same assignment as `setPan`. -/
def panSet (s : SoundState) (value : ℚ) : SoundState :=
  { s with pan := clampQ (-1) 1 value }

/-- Method `setPosition(value)`: `this._position = value || 0`; the
`_updatePosition` hook is a stub. -/
def setPosition (s : SoundState) (value : ℚ) : SoundState :=
  { s with position := jsOrZeroQ value }

/-- The `position` property setter: same assignment `this._position =
value || 0` as `setPosition`. -/
def positionSet (s : SoundState) (value : ℚ) : SoundState :=
  { s with position := jsOrZeroQ value }

/-- Method `setDuration(value)`: `this._duration = value || 0`. -/
def setDuration (s : SoundState) (value : ℚ) : SoundState :=
  { s with duration := jsOrZeroQ value }

/-- The `duration` property setter, same assignment as `setDuration`. -/
def durationSet (s : SoundState) (value : ℚ) : SoundState :=
  { s with duration := jsOrZeroQ value }

/-- Method `setLoop(value)`: the `_removeLooping`/`_addLooping` notifications
on the `0 ↔ nonzero` edge are plugin stubs; the counter mutation is
`this._loop = value`. -/
def setLoop (s : SoundState) (value : Int) : SoundState :=
  { s with loop := value }

/-- The `loop` property setter, identical body to `setLoop`. -/
def loopSet (s : SoundState) (value : Int) : SoundState :=
  { s with loop := value }

/-- Method `setMute(value)`: `if (value == null) return false;
this._muted = value; this._updateVolume(); return true`.  A boolean argument
is never loosely equal to `null`, so it is always stored (the full
value-level behaviour including non-boolean arguments is `setMuteJS`
below). -/
def setMute (s : SoundState) (value : Option Bool) : SoundState × Bool :=
  match value with
  | none => (s, false)
  | some b => ({ s with muted := b }, true)

/-- Method `setMuted(value)`: guard `value !== true || value !== false`.
Every value fails to be strictly equal to at least one of `true` and
`false`, so the guard always takes the early return. -/
def setMuted (s : SoundState) (value : Bool) : SoundState :=
  if value ≠ true ∨ value ≠ false then s
  else { s with muted := value }

/-- The `muted` property setter, identical guard and body to `setMuted`. -/
def mutedSet (s : SoundState) (value : Bool) : SoundState :=
  if value ≠ true ∨ value ≠ false then s
  else { s with muted := value }

/-- Method `setPaused(value)`: guard `value !== true || value !== false ||
this._paused == value` (always satisfied, as in `setMuted`); the unreachable
tail runs the `_updatePaused` stub, stores the flag and clears the delay
timer. -/
def setPaused (s : SoundState) (value : Bool) : SoundState :=
  if value ≠ true ∨ value ≠ false ∨ s.paused = value then s
  else { s with paused := value, delayTimeoutId := none }

/-- The `paused` property setter, identical guard and body to `setPaused`. -/
def pausedSet (s : SoundState) (value : Bool) : SoundState :=
  if value ≠ true ∨ value ≠ false ∨ s.paused = value then s
  else { s with paused := value, delayTimeoutId := none }

/-- Method `pause()`: `if (this._paused || this.playState !=
createjs.Sound.PLAY_SUCCEEDED) return false; this.setPaused(true);
return true`. -/
def pause (s : SoundState) : SoundState × Bool :=
  if s.paused = true ∨ s.playState ≠ PlayState.succeeded then (s, false)
  else (setPaused s true, true)

/-- Method `resume()`: `if (!this._paused) return false;
this.setPaused(false); return true`. -/
def resume (s : SoundState) : SoundState × Bool :=
  if s.paused = false then (s, false)
  else (setPaused s false, true)

/-- Method `stop()`: `this._position = 0; this._paused = false;
this._handleStop(); this._cleanUp(); this.playState = PLAY_FINISHED`
(`_handleStop` is a plugin stub). -/
def stop (s : SoundState) : SoundState × List Eff :=
  let s1 := { s with position := 0, paused := false }
  let r2 := cleanUp s1
  ({ r2.1 with playState := PlayState.finished }, r2.2)

/-- The plugin hook `_calculateCurrentPosition`: "plugin specific code that
sets this.position" — empty in this class, hence the identity. -/
def calculateCurrentPosition (s : SoundState) : SoundState := s

/-- Method `getPosition()`: when not paused and the play state is
`PLAY_SUCCEEDED`, run `_calculateCurrentPosition` first; then return
`this._position`. -/
def getPosition (s : SoundState) : ℚ :=
  if s.paused = false ∧ s.playState = PlayState.succeeded then
    (calculateCurrentPosition s).position
  else s.position

/-- Method `_playFailed`: `this._cleanUp(); this.playState = PLAY_FAILED;
this._sendEvent("failed")`. -/
def playFailed (s : SoundState) : SoundState × List Eff :=
  let r1 := cleanUp s
  ({ r1.1 with playState := PlayState.failed }, r1.2 ++ [Eff.failedEvt])

/-- Method `_handleSoundReady`: `if ((this._position*1000) > this._duration)
then this._playFailed() and return; else if (this._position < 0) then
this._position = 0; this.playState = PLAY_SUCCEEDED; this._paused =
false`. -/
def handleSoundReady (s : SoundState) : SoundState × List Eff :=
  if s.position * 1000 > s.duration then playFailed s
  else
    let s1 := if s.position < 0 then { s with position := 0 } else s
    ({ s1 with playState := PlayState.succeeded, paused := false }, [])

/-- Method `_beginPlaying(offset, loop, volume, pan)`: direct assignments
`this._position = offset; this._loop = loop`, property-setter assignments
`this.volume = volume; this.pan = pan`, then branch on
`this._owner.isPreloadComplete(this.src)` (abstracted as the `ready`
argument): when ready, call `_handleSoundReady(null)` and then
unconditionally `_sendEvent("succeeded")`; otherwise `_playFailed()`. -/
def beginPlaying (s : SoundState) (ready : Bool) (offset : ℚ) (loop : Int)
    (volume pan : ℚ) : SoundState × List Eff :=
  let s1 := { s with position := offset, loop := loop }
  let s2 := panSet (volumeSet s1 volume) pan
  if ready then
    let r3 := handleSoundReady s2
    (r3.1, r3.2 ++ [Eff.succeededEvt])
  else playFailed s2

/-- Method `_interrupt`: `this._cleanUp(); this.playState = PLAY_INTERRUPTED;
this._paused = false; this._sendEvent("interrupted")`. -/
def interrupt (s : SoundState) : SoundState × List Eff :=
  let r1 := cleanUp s
  ({ r1.1 with playState := PlayState.interrupted, paused := false },
    r1.2 ++ [Eff.interruptedEvt])

/-- Method `_handleSoundComplete`: `this._position = 0; if (this._loop != 0)
then this._loop--, _sendEvent("loop") and return; this._cleanUp();
this.playState = PLAY_FINISHED; this._sendEvent("complete")`. -/
def handleSoundComplete (s : SoundState) : SoundState × List Eff :=
  let s0 := { s with position := 0 }
  if s0.loop ≠ 0 then
    ({ s0 with loop := s0.loop - 1 }, [Eff.loopEvt])
  else
    let r1 := cleanUp s0
    ({ r1.1 with playState := PlayState.finished }, r1.2 ++ [Eff.completeEvt])

/-- Iterate `n` natural completions, concatenating the emitted effects. -/
def handleSoundCompleteN (s : SoundState) : Nat → SoundState × List Eff
  | 0 => (s, [])
  | n + 1 =>
    let r1 := handleSoundComplete s
    let r2 := handleSoundCompleteN r1.1 n
    (r2.1, r1.2 ++ r2.2)

/-- Method `play(interrupt, delay, offset, loop, volume, pan)`.  The
bag-versus-positional resolution (when the first argument is an `Object` the
named fields replace the positional ones) yields one optional value per live
parameter; we take those resolved options.  When `playState` is
`PLAY_SUCCEEDED` the body applies `setPosition`/`setLoop`/`setVolume`/
`setPan` to the non-`null` options, calls `resume()` if `this._paused`, and
returns; otherwise it runs `_cleanUp()` and calls
`createjs.Sound._playInstance(this, ...)`. -/
def play (s : SoundState) (offset? : Option ℚ) (loop? : Option Int)
    (volume? : Option ℚ) (pan? : Option ℚ) : SoundState × List Eff :=
  if s.playState = PlayState.succeeded then
    let s1 := match offset? with | some o => setPosition s o | none => s
    let s2 := match loop? with | some l => setLoop s1 l | none => s1
    let s3 := match volume? with | some v => setVolume s2 v | none => s2
    let s4 := match pan? with | some p => setPan s3 p | none => s3
    let s5 := if s4.paused = true then (resume s4).1 else s4
    (s5, [])
  else
    let r6 := cleanUp s
    (r6.1, r6.2 ++ [Eff.playInstanceCall])

/-- One write or operation on a session: every public mutator (method and
property-setter form), plus the facade callbacks.  Quantifying over `Op`
captures "every write" for the clamping and paused-flag invariants. -/
inductive Op
  | playOp (offset? : Option ℚ) (loop? : Option Int) (volume? : Option ℚ)
      (pan? : Option ℚ)
  | pauseOp
  | resumeOp
  | setPausedOp (value : Bool)
  | pausedSetOp (value : Bool)
  | stopOp
  | setVolumeOp (value : ℚ)
  | volumeSetOp (value : ℚ)
  | setPanOp (value : ℚ)
  | panSetOp (value : ℚ)
  | setPositionOp (value : ℚ)
  | positionSetOp (value : ℚ)
  | setDurationOp (value : ℚ)
  | durationSetOp (value : ℚ)
  | setLoopOp (value : Int)
  | loopSetOp (value : Int)
  | setMuteOp (value : Option Bool)
  | setMutedOp (value : Bool)
  | mutedSetOp (value : Bool)
  | beginPlayingOp (ready : Bool) (offset : ℚ) (loop : Int) (volume pan : ℚ)
  | interruptOp
  | handleSoundCompleteOp

/-- Dispatch an operation to its embedded definition, forgetting return
values and keeping the state. -/
def step (s : SoundState) : Op → SoundState
  | Op.playOp offset? loop? volume? pan? => (play s offset? loop? volume? pan?).1
  | Op.pauseOp => (pause s).1
  | Op.resumeOp => (resume s).1
  | Op.setPausedOp v => setPaused s v
  | Op.pausedSetOp v => pausedSet s v
  | Op.stopOp => (stop s).1
  | Op.setVolumeOp v => setVolume s v
  | Op.volumeSetOp v => volumeSet s v
  | Op.setPanOp v => setPan s v
  | Op.panSetOp v => panSet s v
  | Op.setPositionOp v => setPosition s v
  | Op.positionSetOp v => positionSet s v
  | Op.setDurationOp v => setDuration s v
  | Op.durationSetOp v => durationSet s v
  | Op.setLoopOp v => setLoop s v
  | Op.loopSetOp v => loopSet s v
  | Op.setMuteOp v => (setMute s v).1
  | Op.setMutedOp v => setMuted s v
  | Op.mutedSetOp v => mutedSet s v
  | Op.beginPlayingOp ready offset loop volume pan =>
      (beginPlaying s ready offset loop volume pan).1
  | Op.interruptOp => (interrupt s).1
  | Op.handleSoundCompleteOp => (handleSoundComplete s).1

/-! Value-level model of the setters whose behaviour depends on JavaScript
value coercions (`value || 0`, `value == null`, strict `!==` against
booleans).  `JSVal` covers the value universe those lines distinguish. -/

/-- A JavaScript value as distinguished by the embedded setter guards:
`undefined`, `null`, booleans, finite numbers, `NaN`, strings. -/
inductive JSVal
  | vundef
  | vnull
  | vbool (b : Bool)
  | vnum (q : ℚ)
  | vnan
  | vstr (s : String)
deriving DecidableEq, Repr

/-- JavaScript truthiness: `undefined`, `null`, `false`, `0`, `NaN` and the
empty string are falsy; everything else in `JSVal` is truthy. -/
def truthy : JSVal → Bool
  | JSVal.vundef => false
  | JSVal.vnull => false
  | JSVal.vbool b => b
  | JSVal.vnum q => decide (q ≠ 0)
  | JSVal.vnan => false
  | JSVal.vstr s => decide (s ≠ "")

/-- JavaScript loose equality with `null` (`value == null`): true exactly for
`null` and `undefined`. -/
def jsLooseEqNull : JSVal → Bool
  | JSVal.vnull => true
  | JSVal.vundef => true
  | _ => false

/-- JavaScript `value || 0`. -/
def jsOrZero (v : JSVal) : JSVal :=
  if truthy v then v else JSVal.vnum 0

/-- The stored-value dataflow of `setPosition(value)`:
`this._position = value || 0`. -/
def setPositionJS (value : JSVal) : JSVal := jsOrZero value

/-- The stored-value dataflow of the `position` property setter, the same
line `this._position = value || 0`. -/
def positionSetJS (value : JSVal) : JSVal := jsOrZero value

/-- The stored-value dataflow of `setDuration(value)`:
`this._duration = value || 0`. -/
def setDurationJS (value : JSVal) : JSVal := jsOrZero value

/-- The stored-value dataflow of the `duration` property setter, the same
line `this._duration = value || 0`. -/
def durationSetJS (value : JSVal) : JSVal := jsOrZero value

/-- Value-level `setMute(value)` on the stored `_muted` value: `if (value ==
null) return false; this._muted = value; this._updateVolume(); return true`.
Result: new stored value, returned boolean, dispatched events (none — the
setters never call `_sendEvent`). -/
def setMuteJS (prior value : JSVal) : JSVal × Bool × List Eff :=
  if jsLooseEqNull value then (prior, false, [])
  else (value, true, [])

/-- Value-level `setMuted(value)`: guard `value !== true || value !== false`,
then store.  Result: new stored value and dispatched events. -/
def setMutedJS (prior value : JSVal) : JSVal × List Eff :=
  if value ≠ JSVal.vbool true ∨ value ≠ JSVal.vbool false then (prior, [])
  else (value, [])

/-- Value-level `muted` property setter, identical guard and body to
`setMuted`. -/
def mutedSetJS (prior value : JSVal) : JSVal × List Eff :=
  if value ≠ JSVal.vbool true ∨ value ≠ JSVal.vbool false then (prior, [])
  else (value, [])

/-- Value-level `setPaused(value)` on the stored `_paused` value: guard
`value !== true || value !== false || this._paused == value`.  The third
disjunct is only reached if the first two fail, which no value achieves. -/
def setPausedJS (prior value : JSVal) : JSVal × List Eff :=
  if value ≠ JSVal.vbool true ∨ value ≠ JSVal.vbool false ∨ prior = value then
    (prior, [])
  else (value, [])

/-! Loader model (file `part_001`, `FlashAudioLoader`). -/

/-- The static loader state: `Loader._flash` (the Flash engine handle, opaque
here) and `Loader._preloadInstances` (the queue of loader instances, by
identifier, that called `load` before the engine was set). -/
structure LoaderSt where
  flash : Option Nat
  preloadInstances : List Nat
deriving DecidableEq, Repr

/-- Observable loader effects: a replayed or direct `flash.preload(src)` call
(with the follow-up `registerPreloadInstance`) for a given loader. -/
inductive LoadEff
  | preloadCall (loaderId : Nat)
deriving DecidableEq, Repr

/-- Method `load(src)` of a loader instance (identified by `loaderId`): after
the superclass call, `if (Loader._flash == null)` push this instance on
`_preloadInstances` and return; otherwise `this.flashId =
this._flash.preload(this.src)` and register the instance. -/
def load (st : LoaderSt) (loaderId : Nat) : LoaderSt × List LoadEff :=
  match st.flash with
  | none => ({ st with preloadInstances := st.preloadInstances ++ [loaderId] }, [])
  | some _ => (st, [LoadEff.preloadCall loaderId])

/-- JavaScript `ToNumber` of the `_preloadInstances` array, as forced by the
loop header `for(var i = s._preloadInstances; i--; )`: an empty array
stringifies to `""` and converts to `0`; a non-empty array of loader objects
stringifies to a comma-join of `"[FlashAudioLoader]"` strings, which is not
numeric, so the conversion yields `NaN` (modelled `none`). -/
def arrayToNumber (xs : List Nat) : Option ℚ :=
  if xs.isEmpty then some 0 else none

/-- Truth value of the loop guard `i--` on its first evaluation in
`setFlash`: the pre-decrement value is `ToNumber(_preloadInstances)`, and
both `0` and `NaN` are falsy. -/
def setFlashLoopGuard (queue : List Nat) : Bool :=
  match arrayToNumber queue with
  | some q => decide (q ≠ 0)
  | none => false

/-- Static method `setFlash(flash)`: `s._flash = flash` and then the loop
`for(var i = s._preloadInstances; i--; ) { var loader =
s._preloadInstances.pop(); loader.load(); }`.  The loop variable `i` is
initialised with the array itself, so the guard `i--` coerces the array to a
number (see `arrayToNumber`); that first test is falsy for every queue
(`setFlashLoopGuard_false` below), hence the body runs zero times: nothing
is popped and no queued `load` is replayed. -/
def setFlash (st : LoaderSt) (f : Nat) : LoaderSt × List LoadEff :=
  ({ st with flash := some f }, [])

/-- Result of a JavaScript division, covering the zero-denominator cases. -/
inductive JSNum
  | fin (q : ℚ)
  | nan
  | inf
  | neginf
deriving DecidableEq, Repr

/-- JavaScript `a / b` on finite numbers: `0/0` is `NaN`, `a/0` with `a ≠ 0`
is a signed infinity, otherwise the exact quotient. -/
def jsDiv (a b : ℚ) : JSNum :=
  if b = 0 then
    if a = 0 then JSNum.nan
    else if 0 < a then JSNum.inf
    else JSNum.neginf
  else JSNum.fin (a / b)

/-- A progress report forwarded to the superclass handler
(`AbstractSoundLoader__handleProgress`) with the raw byte counts. -/
inductive ProgEff
  | progressEvt (loaded total : ℚ)
deriving DecidableEq, Repr

/-- Method `handleProgress(loaded, total)`: `this.progress = loaded / total`
and then, unconditionally,
`this.AbstractSoundLoader__handleProgress(loaded, total)`. -/
def handleProgress (loaded total : ℚ) : JSNum × List ProgEff :=
  (jsDiv loaded total, [ProgEff.progressEvt loaded total])

/-- Volume and pan are inside their documented ranges. -/
def VolPanInv (s : SoundState) : Prop :=
  0 ≤ s.volume ∧ s.volume ≤ 1 ∧ -1 ≤ s.pan ∧ s.pan ≤ 1

/-! Shared lemmas about the embedded operations. -/

theorem jsOrZeroQ_eq (v : ℚ) : jsOrZeroQ v = v := by
  unfold jsOrZeroQ
  by_cases h : v = 0 <;> simp [h]

/-- The guard of `setPaused` accepts every boolean, so the method never
mutates the state. -/
theorem setPaused_eq (s : SoundState) (v : Bool) : setPaused s v = s := by
  cases v <;> simp [setPaused]

theorem pausedSet_eq (s : SoundState) (v : Bool) : pausedSet s v = s := by
  cases v <;> simp [pausedSet]

/-- The guard of `setMuted` accepts every boolean, so the method never
mutates the state. -/
theorem setMuted_eq (s : SoundState) (v : Bool) : setMuted s v = s := by
  cases v <;> simp [setMuted]

theorem mutedSet_eq (s : SoundState) (v : Bool) : mutedSet s v = s := by
  cases v <;> simp [mutedSet]

/-- Because `setPaused` never mutates, `resume` leaves the state unchanged
either way. -/
theorem resume_fst (s : SoundState) : (resume s).1 = s := by
  unfold resume
  by_cases h : s.paused = false <;> simp [h, setPaused_eq]

/-- The first test of the `setFlash` loop guard `i--` is falsy for every
queue: the empty array coerces to `0`, a non-empty array of loader objects
coerces to `NaN`. -/
theorem setFlashLoopGuard_false (queue : List Nat) :
    setFlashLoopGuard queue = false := by
  unfold setFlashLoopGuard arrayToNumber
  by_cases h : queue.isEmpty <;> simp [h]

theorem clampQ_mem (lo hi v : ℚ) (h : lo ≤ hi) :
    lo ≤ clampQ lo hi v ∧ clampQ lo hi v ≤ hi := by
  unfold clampQ
  constructor
  · exact le_max_left lo (min hi v)
  · exact max_le h (min_le_left hi v)

/-- The state component of `play` never changes the paused flag: the four
live-parameter setters do not touch it, `resume` is the identity on the
state, and the other branch only runs `_cleanUp`. -/
theorem play_fst_paused (s : SoundState) (offset? : Option ℚ)
    (loop? : Option Int) (volume? : Option ℚ) (pan? : Option ℚ) :
    (play s offset? loop? volume? pan?).1.paused = s.paused := by
  unfold play
  by_cases hs : s.playState = PlayState.succeeded
  · simp only [hs, if_pos]
    rcases offset? with _ | o <;> rcases loop? with _ | l <;>
      rcases volume? with _ | v <;> rcases pan? with _ | p <;>
      simp [setPosition, setLoop, setVolume, setPan, resume_fst, cleanUp]
  · simp [hs, cleanUp]

/-- The volume stored by `play` is either untouched or the clamp of a
requested volume. -/
theorem play_fst_volume (s : SoundState) (offset? : Option ℚ)
    (loop? : Option Int) (volume? : Option ℚ) (pan? : Option ℚ) :
    (play s offset? loop? volume? pan?).1.volume = s.volume ∨
      ∃ v, (play s offset? loop? volume? pan?).1.volume = clampQ 0 1 v := by
  unfold play
  by_cases hs : s.playState = PlayState.succeeded
  · simp only [hs, if_pos]
    rcases offset? with _ | o <;> rcases loop? with _ | l <;>
      rcases volume? with _ | v <;> rcases pan? with _ | p <;>
      simp [setPosition, setLoop, setVolume, setPan, resume_fst, cleanUp]
  · simp [hs, cleanUp]

/-- The pan stored by `play` is either untouched or the clamp of a requested
pan. -/
theorem play_fst_pan (s : SoundState) (offset? : Option ℚ)
    (loop? : Option Int) (volume? : Option ℚ) (pan? : Option ℚ) :
    (play s offset? loop? volume? pan?).1.pan = s.pan ∨
      ∃ p, (play s offset? loop? volume? pan?).1.pan = clampQ (-1) 1 p := by
  unfold play
  by_cases hs : s.playState = PlayState.succeeded
  · simp only [hs, if_pos]
    rcases offset? with _ | o <;> rcases loop? with _ | l <;>
      rcases volume? with _ | v <;> rcases pan? with _ | p <;>
      simp [setPosition, setLoop, setVolume, setPan, resume_fst, cleanUp]
  · simp [hs, cleanUp]

/-- Because `setPaused` never mutates, `pause` leaves the state unchanged in
both branches. -/
theorem pause_fst (s : SoundState) : (pause s).1 = s := by
  unfold pause
  split <;> simp [setPaused_eq]

/-- The volume stored by `_beginPlaying` is always the clamp of the
requested volume: the assignment goes through the `volume` property setter,
and neither branch afterwards touches the field. -/
theorem beginPlaying_volume (s : SoundState) (ready : Bool) (offset : ℚ)
    (loop : Int) (volume pan : ℚ) :
    (beginPlaying s ready offset loop volume pan).1.volume =
      clampQ 0 1 volume := by
  unfold beginPlaying handleSoundReady playFailed cleanUp volumeSet panSet
  cases ready <;> simp <;> split <;> simp <;> split <;> simp

/-- The pan stored by `_beginPlaying` is always the clamp of the requested
pan. -/
theorem beginPlaying_pan (s : SoundState) (ready : Bool) (offset : ℚ)
    (loop : Int) (volume pan : ℚ) :
    (beginPlaying s ready offset loop volume pan).1.pan =
      clampQ (-1) 1 pan := by
  unfold beginPlaying handleSoundReady playFailed cleanUp volumeSet panSet
  cases ready <;> simp <;> split <;> simp <;> split <;> simp

/-- Natural completion with a nonzero loop counter: reset position,
decrement the counter, emit exactly one loop event, leave everything else
(including the play state) unchanged. -/
theorem handleSoundComplete_nonzero (s : SoundState) (h : s.loop ≠ 0) :
    handleSoundComplete s =
      ({ s with position := 0, loop := s.loop - 1 }, [Eff.loopEvt]) := by
  unfold handleSoundComplete
  simp [h]

/-- Natural completion with a zero loop counter: reset position, clean up,
move to `PLAY_FINISHED`, emit the complete event. -/
theorem handleSoundComplete_zero (s : SoundState) (h : s.loop = 0) :
    handleSoundComplete s =
      ({ s with
          position := 0
          delayTimeoutId := none
          playState := PlayState.finished },
        [Eff.playFinishedCall, Eff.completeEvt]) := by
  unfold handleSoundComplete cleanUp
  simp [h]

/-- A negative (infinite) loop counter survives any number of natural
completions: the play state is untouched, the counter stays negative, and
every completion emits exactly one loop event. -/
theorem handleSoundCompleteN_neg (n : Nat) : ∀ s : SoundState, s.loop < 0 →
    (handleSoundCompleteN s n).1.playState = s.playState ∧
    (handleSoundCompleteN s n).1.loop < 0 ∧
    (handleSoundCompleteN s n).2 = List.replicate n Eff.loopEvt := by
  induction n with
  | zero =>
    intro s h
    exact ⟨rfl, h, rfl⟩
  | succ n ih =>
    intro s h
    have hne : s.loop ≠ 0 := by omega
    have hstep := handleSoundComplete_nonzero s hne
    have h1 : ({ s with position := 0, loop := s.loop - 1 } : SoundState).loop < 0 := by
      simp
      omega
    obtain ⟨a, b, c⟩ := ih _ h1
    refine ⟨?_, ?_, ?_⟩ <;>
      simp [handleSoundCompleteN, hstep, a, b, c, List.replicate_succ]

/-- Every operation either leaves the stored volume alone or writes a
clamped value. -/
theorem step_volume (s : SoundState) (op : Op) :
    (step s op).volume = s.volume ∨
      ∃ v, (step s op).volume = clampQ 0 1 v := by
  cases op <;>
    simp [step, pause_fst, resume_fst, setPaused_eq, pausedSet_eq,
      setMuted_eq, mutedSet_eq, setVolume, volumeSet, setPan, panSet,
      setPosition, positionSet, setDuration, durationSet, setLoop, loopSet,
      stop, cleanUp, interrupt, beginPlaying_volume]
  case playOp offset? loop? volume? pan? => exact play_fst_volume s _ _ _ _
  case setMuteOp v => rcases v with _ | b <;> simp [setMute]
  case handleSoundCompleteOp =>
    by_cases hl : s.loop = 0
    · simp [handleSoundComplete_zero s hl]
    · simp [handleSoundComplete_nonzero s hl]

/-- Every operation either leaves the stored pan alone or writes a clamped
value. -/
theorem step_pan (s : SoundState) (op : Op) :
    (step s op).pan = s.pan ∨
      ∃ v, (step s op).pan = clampQ (-1) 1 v := by
  cases op <;>
    simp [step, pause_fst, resume_fst, setPaused_eq, pausedSet_eq,
      setMuted_eq, mutedSet_eq, setVolume, volumeSet, setPan, panSet,
      setPosition, positionSet, setDuration, durationSet, setLoop, loopSet,
      stop, cleanUp, interrupt, beginPlaying_pan]
  case playOp offset? loop? volume? pan? => exact play_fst_pan s _ _ _ _
  case setMuteOp v => rcases v with _ | b <;> simp [setMute]
  case handleSoundCompleteOp =>
    by_cases hl : s.loop = 0
    · simp [handleSoundComplete_zero s hl]
    · simp [handleSoundComplete_nonzero s hl]

/-- The paused flag can never become true: every operation maps an unpaused
state to an unpaused state (and the constructor starts unpaused), because
the only writes of `true` go through the ineffective `setPaused` guard. -/
theorem step_preserves_unpaused (s : SoundState) (op : Op)
    (h : s.paused = false) : (step s op).paused = false := by
  cases op <;>
    simp [step, pause_fst, resume_fst, setPaused_eq, pausedSet_eq,
      setMuted_eq, mutedSet_eq, setVolume, volumeSet, setPan, panSet,
      setPosition, positionSet, setDuration, durationSet, setLoop, loopSet,
      stop, cleanUp, interrupt, play_fst_paused, h]
  case setMuteOp v => rcases v with _ | b <;> simp [setMute, h]
  case beginPlayingOp ready offset loop volume pan =>
    unfold beginPlaying handleSoundReady playFailed cleanUp volumeSet panSet
    cases ready <;> simp [h] <;> split <;> simp [h]
  case handleSoundCompleteOp =>
    by_cases hl : s.loop = 0
    · simp [handleSoundComplete_zero s hl, h]
    · simp [handleSoundComplete_nonzero s hl, h]

/-! Claim theorems. -/

/-- C1: evaluation of the embedded `_beginPlaying` at a concrete failing
input.  For a 500 ms clip whose resource is ready, the in-range offset 1 ms
does not start playback: because `_handleSoundReady` compares
`this._position * 1000` (milliseconds) against `this._duration`
(milliseconds), the attempt fails immediately, and because `_beginPlaying`
dispatches "succeeded" unconditionally after `_handleSoundReady`, a
"succeeded" event follows the "failed" event even though the play state
ends `PLAY_FAILED`.  The claim says an in-range offset yields `SUCCEEDED`
with a lone "succeeded", and an out-of-range one exactly one "failed" and
no "succeeded"; the code does neither. -/
theorem C1_beginPlaying_failing_input_eval :
    beginPlaying (mkInstance "sound.mp3" 0 500) true 1 0 1 0 =
      ({ mkInstance "sound.mp3" 0 500 with
          position := 1
          playState := PlayState.failed },
        [Eff.playFinishedCall, Eff.failedEvt, Eff.succeededEvt]) ∧
    (1 : ℚ) ≤ 500 := by
  constructor
  · simp [beginPlaying, handleSoundReady, playFailed, cleanUp, volumeSet,
      panSet, mkInstance, jsOrZeroQ, clampQ]
    norm_num
  · norm_num

/-- C2: two `load` requests made while `Loader._flash` is still null are
queued in submission order, but `setFlash` replays neither of them: the
replay loop's guard coerces the queue array itself to a number (`NaN`, or
`0` when empty), which is falsy, so no queued load is ever replayed and the
queue is not even drained.  The claim says every queued load is replayed in
FIFO order once the engine arrives. -/
theorem C2_setFlash_replays_nothing :
    load { flash := none, preloadInstances := [] } 1 =
      ({ flash := none, preloadInstances := [1] }, []) ∧
    load { flash := none, preloadInstances := [1] } 2 =
      ({ flash := none, preloadInstances := [1, 2] }, []) ∧
    setFlash { flash := none, preloadInstances := [1, 2] } 7 =
      ({ flash := some 7, preloadInstances := [1, 2] }, []) ∧
    setFlashLoopGuard [1, 2] = false := by
  refine ⟨rfl, rfl, rfl, setFlashLoopGuard_false [1, 2]⟩

/-- C3: evaluation of the embedded `pause` at a concrete failing input.  On
a session in `PLAY_SUCCEEDED` with a pending delayed-start timer, `pause()`
returns `true` (reporting success) yet changes nothing: the paused flag
stays false and the delay timer stays armed, because the `setPaused` guard
`value !== true || value !== false || this._paused == value` is satisfied
by every value.  The claim (and the method documentation, and the
`DefaultSoundInstance.js` variant of `pause`) says a pause from `SUCCEEDED`
sets the flag and cancels the timer.  The not-`SUCCEEDED` half of the claim
does hold: `pause` on a fresh instance returns `false` and changes
nothing. -/
theorem C3_pause_ineffective_eval :
    pause { mkInstance "sound.mp3" 0 1000 with
             playState := PlayState.succeeded
             delayTimeoutId := some 7 } =
      ({ mkInstance "sound.mp3" 0 1000 with
          playState := PlayState.succeeded
          delayTimeoutId := some 7 }, true) ∧
    ({ mkInstance "sound.mp3" 0 1000 with
        playState := PlayState.succeeded
        delayTimeoutId := some 7 } : SoundState).paused = false ∧
    setPaused { mkInstance "sound.mp3" 0 1000 with
                 playState := PlayState.succeeded
                 delayTimeoutId := some 7 } true =
      { mkInstance "sound.mp3" 0 1000 with
         playState := PlayState.succeeded
         delayTimeoutId := some 7 } ∧
    pause (mkInstance "sound.mp3" 0 1000) =
      (mkInstance "sound.mp3" 0 1000, false) := by
  refine ⟨?_, rfl, setPaused_eq _ true, ?_⟩
  · simp [pause, setPaused_eq, mkInstance]
  · simp [pause, mkInstance]

/-- C5: from any prior state, `stop()` resets the stored position to 0,
clears the paused flag, cancels the pending delay timer, unconditionally
sets the play state to `PLAY_FINISHED` (notifying the facade via
`_playFinished`), and an immediate `getPosition()` then returns 0. -/
theorem C5_stop_resets (s : SoundState) :
    (stop s).1 =
      { s with
         position := 0
         paused := false
         delayTimeoutId := none
         playState := PlayState.finished } ∧
    getPosition (stop s).1 = 0 ∧
    (stop s).2 = [Eff.playFinishedCall] := by
  refine ⟨rfl, ?_, rfl⟩
  simp [stop, cleanUp, getPosition, calculateCurrentPosition]

/-- C4: natural-completion semantics of `_handleSoundComplete`.  With a
nonzero loop counter the counter is decremented, the position is reset to
the clip start, exactly one "loop" event is emitted and the play state is
untouched (so a `SUCCEEDED` session stays `SUCCEEDED`); with a zero counter
the session moves to `FINISHED` and emits "complete".  Starting from
loop = 2 in `SUCCEEDED`, three consecutive completions yield "loop"
(loop = 1), "loop" (loop = 0), then "complete" with state `FINISHED`; and a
negative (infinite) counter yields "loop" on every one of any number of
completions, never "complete". -/
theorem C4_handleSoundComplete_loop_semantics :
    (∀ s : SoundState, s.loop ≠ 0 →
        handleSoundComplete s =
          ({ s with position := 0, loop := s.loop - 1 }, [Eff.loopEvt])) ∧
    (∀ s : SoundState, s.loop = 0 →
        handleSoundComplete s =
          ({ s with
              position := 0
              delayTimeoutId := none
              playState := PlayState.finished },
            [Eff.playFinishedCall, Eff.completeEvt])) ∧
    (∀ s : SoundState, s.playState = PlayState.succeeded → s.loop = 2 →
        (handleSoundComplete s).2 = [Eff.loopEvt] ∧
        (handleSoundComplete s).1.loop = 1 ∧
        (handleSoundComplete s).1.playState = PlayState.succeeded ∧
        (handleSoundComplete (handleSoundComplete s).1).2 = [Eff.loopEvt] ∧
        (handleSoundComplete (handleSoundComplete s).1).1.loop = 0 ∧
        (handleSoundComplete (handleSoundComplete s).1).1.playState =
          PlayState.succeeded ∧
        (handleSoundComplete
            (handleSoundComplete (handleSoundComplete s).1).1).2 =
          [Eff.playFinishedCall, Eff.completeEvt] ∧
        (handleSoundComplete
            (handleSoundComplete (handleSoundComplete s).1).1).1.playState =
          PlayState.finished) ∧
    (∀ (s : SoundState) (n : Nat),
        s.playState = PlayState.succeeded → s.loop < 0 →
        (handleSoundCompleteN s n).1.playState = PlayState.succeeded ∧
        (handleSoundCompleteN s n).2 = List.replicate n Eff.loopEvt) :=
  by
  refine ⟨handleSoundComplete_nonzero, handleSoundComplete_zero, ?_, ?_⟩
  · intro s hp hl
    have h1 := handleSoundComplete_nonzero s (by omega)
    rw [h1]
    have h2 := handleSoundComplete_nonzero
      ({ s with position := 0, loop := s.loop - 1 }) (by simp; omega)
    simp only [hl] at h1 h2 ⊢
    rw [h2]
    have h3 := handleSoundComplete_zero
      ({ { s with position := 0, loop := (2 : Int) - 1 } with
          position := 0, loop := (2 : Int) - 1 - 1 }) (by simp)
    rw [h3]
    simp [hp]
  · intro s n hp hl
    obtain ⟨a, b, c⟩ := handleSoundCompleteN_neg n s hl
    exact ⟨by rw [a, hp], c⟩

/-- C4 witness: the negative-counter conjunct applied at a concrete
`SUCCEEDED` session with loop = -1 and five completions, and the loop = 2
conjunct at a concrete session. -/
theorem C4_witness :
    ((handleSoundCompleteN
        { mkInstance "a.mp3" 0 100 with
           playState := PlayState.succeeded
           loop := -1 } 5).1.playState = PlayState.succeeded ∧
     (handleSoundCompleteN
        { mkInstance "a.mp3" 0 100 with
           playState := PlayState.succeeded
           loop := -1 } 5).2 = List.replicate 5 Eff.loopEvt) ∧
    (handleSoundComplete
        { mkInstance "a.mp3" 0 100 with
           playState := PlayState.succeeded
           loop := 2 }).2 = [Eff.loopEvt] :=
  ⟨C4_handleSoundComplete_loop_semantics.2.2.2 _ 5 rfl (by decide),
   (C4_handleSoundComplete_loop_semantics.2.2.1 _ rfl rfl).1⟩

/-- C6: calling `play` while the play state is `PLAY_SUCCEEDED` spawns no
new playback attempt: no `Sound._playInstance` arbitration request (indeed
no facade call or event at all) is issued, the session's play state stays
`SUCCEEDED`, and the only fields written are position (offset), loop,
volume and pan, each from the corresponding supplied option; the session is
resumed (left unpaused) if it was paused.  The hypothesis `s.paused =
false` holds in every reachable state (`step_preserves_unpaused` and the
constructor), which makes the resume clause vacuous: the broken `setPaused`
guard prevents the flag from ever being true. -/
theorem C6_play_while_succeeded (s : SoundState) (offset? : Option ℚ)
    (loop? : Option Int) (volume? : Option ℚ) (pan? : Option ℚ)
    (hs : s.playState = PlayState.succeeded) (hp : s.paused = false) :
    play s offset? loop? volume? pan? =
      ({ s with
          position := (match offset? with
            | some o => jsOrZeroQ o
            | none => s.position)
          loop := (match loop? with
            | some l => l
            | none => s.loop)
          volume := (match volume? with
            | some v => clampQ 0 1 v
            | none => s.volume)
          pan := (match pan? with
            | some p => clampQ (-1) 1 p
            | none => s.pan) },
        []) ∧
    Eff.playInstanceCall ∉ (play s offset? loop? volume? pan?).2 ∧
    (s.paused = true → (play s offset? loop? volume? pan?).1.paused = false) := by
  have key : play s offset? loop? volume? pan? =
      ({ s with
          position := (match offset? with
            | some o => jsOrZeroQ o
            | none => s.position)
          loop := (match loop? with
            | some l => l
            | none => s.loop)
          volume := (match volume? with
            | some v => clampQ 0 1 v
            | none => s.volume)
          pan := (match pan? with
            | some p => clampQ (-1) 1 p
            | none => s.pan) },
        []) := by
    obtain ⟨f1, f2, f3, f4, f5, f6, f7, f8, f9, f10, f11, f12⟩ := s
    unfold play
    rcases offset? with _ | o <;> rcases loop? with _ | l <;>
      rcases volume? with _ | v <;> rcases pan? with _ | p <;>
      simp_all [setPosition, setLoop, setVolume, setPan, resume_fst]
  refine ⟨key, ?_, ?_⟩
  · rw [key]
    simp
  · intro hcontra
    rw [hp] at hcontra
    exact absurd hcontra (by simp)

/-- C6 witness: the theorem applied to a concrete running session with all
four live parameters supplied. -/
theorem C6_witness :
    play { mkInstance "a.mp3" 0 100 with playState := PlayState.succeeded }
        (some 5) (some 2) (some (1 / 2)) (some 0) =
      ({ { mkInstance "a.mp3" 0 100 with playState := PlayState.succeeded } with
          position := jsOrZeroQ 5
          loop := 2
          volume := clampQ 0 1 (1 / 2)
          pan := clampQ (-1) 1 0 },
        []) ∧
    Eff.playInstanceCall ∉
      (play { mkInstance "a.mp3" 0 100 with playState := PlayState.succeeded }
        (some 5) (some 2) (some (1 / 2)) (some 0)).2 ∧
    (({ mkInstance "a.mp3" 0 100 with
         playState := PlayState.succeeded } : SoundState).paused = true →
      (play { mkInstance "a.mp3" 0 100 with playState := PlayState.succeeded }
        (some 5) (some 2) (some (1 / 2)) (some 0)).1.paused = false) :=
  C6_play_while_succeeded _ (some 5) (some 2) (some (1 / 2)) (some 0) rfl rfl

/-- C7: every write to the volume stores exactly `clamp(v, 0, 1)` and every
write to the pan stores exactly `clamp(v, -1, 1)` (method and property
setter alike); the constructor establishes the ranges and every operation
of the session preserves them, so the stored volume is never outside
`[0, 1]` and the stored pan never outside `[-1, 1]`, even transiently. -/
theorem C7_volume_pan_clamped :
    (∀ (s : SoundState) (v : ℚ), (setVolume s v).volume = clampQ 0 1 v) ∧
    (∀ (s : SoundState) (v : ℚ), (volumeSet s v).volume = clampQ 0 1 v) ∧
    (∀ (s : SoundState) (v : ℚ), (setPan s v).pan = clampQ (-1) 1 v) ∧
    (∀ (s : SoundState) (v : ℚ), (panSet s v).pan = clampQ (-1) 1 v) ∧
    (∀ (src : String) (st d : ℚ), VolPanInv (mkInstance src st d)) ∧
    (∀ (s : SoundState) (op : Op), VolPanInv s → VolPanInv (step s op)) := by
  refine ⟨fun s v => rfl, fun s v => rfl, fun s v => rfl, fun s v => rfl,
    ?_, ?_⟩
  · intro src st d
    refine ⟨?_, ?_, ?_, ?_⟩ <;> simp [mkInstance]
  · intro s op h
    obtain ⟨h1, h2, h3, h4⟩ := h
    have hv := step_volume s op
    have hp := step_pan s op
    refine ⟨?_, ?_, ?_, ?_⟩
    · rcases hv with hv | ⟨v, hv⟩
      · rw [hv]; exact h1
      · rw [hv]; exact (clampQ_mem 0 1 v (by norm_num)).1
    · rcases hv with hv | ⟨v, hv⟩
      · rw [hv]; exact h2
      · rw [hv]; exact (clampQ_mem 0 1 v (by norm_num)).2
    · rcases hp with hp | ⟨p, hp⟩
      · rw [hp]; exact h3
      · rw [hp]; exact (clampQ_mem (-1) 1 p (by norm_num)).1
    · rcases hp with hp | ⟨p, hp⟩
      · rw [hp]; exact h4
      · rw [hp]; exact (clampQ_mem (-1) 1 p (by norm_num)).2

/-- C7 witness: the invariant established by the constructor and preserved
through an out-of-range `setVolume(5)` write. -/
theorem C7_witness :
    VolPanInv (mkInstance "a.mp3" 0 0) ∧
    VolPanInv (step (mkInstance "a.mp3" 0 0) (Op.setVolumeOp 5)) :=
  ⟨C7_volume_pan_clamped.2.2.2.2.1 "a.mp3" 0 0,
   C7_volume_pan_clamped.2.2.2.2.2 _ _
     (C7_volume_pan_clamped.2.2.2.2.1 "a.mp3" 0 0)⟩

/-- C8 counterexample: `setMute` does not ignore a malformed (non-boolean)
input.  With prior stored value `false`, `setMute(5)` passes the
`value == null` guard, stores the number `5` as the muted value and returns
`true`: the prior stored value is not retained, contradicting the claim
that every boolean setter silently ignores malformed input. -/
theorem C8_counterexample :
    setMuteJS (JSVal.vbool false) (JSVal.vnum 5) =
      (JSVal.vnum 5, true, []) ∧
    (setMuteJS (JSVal.vbool false) (JSVal.vnum 5)).1 ≠ JSVal.vbool false := by
  refine ⟨rfl, ?_⟩
  simp [setMuteJS, jsLooseEqNull]

/-- C8 amended: `setMuted`, the `muted` property setter and the
`paused`/`setPaused` path silently ignore every input — malformed or not —
with no exception, the prior value retained and no event; `setMute`,
however, ignores only `null`/`undefined` (returning `false`) and stores any
other value verbatim, including non-boolean values, replacing the prior
value (still with no exception and no event). -/
theorem C8_setter_input_handling :
    (∀ prior value : JSVal, setMutedJS prior value = (prior, [])) ∧
    (∀ prior value : JSVal, mutedSetJS prior value = (prior, [])) ∧
    (∀ prior value : JSVal, setPausedJS prior value = (prior, [])) ∧
    (∀ prior value : JSVal, jsLooseEqNull value = true →
        setMuteJS prior value = (prior, false, [])) ∧
    (∀ prior value : JSVal, jsLooseEqNull value = false →
        setMuteJS prior value = (value, true, [])) := by
  refine ⟨?_, ?_, ?_, ?_, ?_⟩
  · intro prior value
    rcases value with _ | _ | b | q | _ | t <;> simp [setMutedJS]
  · intro prior value
    rcases value with _ | _ | b | q | _ | t <;> simp [mutedSetJS]
  · intro prior value
    rcases value with _ | _ | b | q | _ | t
    case vbool => rcases b with _ | _ <;> simp [setPausedJS]
    all_goals simp [setPausedJS]
  · intro prior value h
    simp [setMuteJS, h]
  · intro prior value h
    simp [setMuteJS, h]

/-- C8 witness: `setMute(null)` on a muted session is refused with the
prior value retained, via the theorem's `null`-input conjunct. -/
theorem C8_witness :
    jsLooseEqNull JSVal.vnull = true ∧
    setMuteJS (JSVal.vbool true) JSVal.vnull =
      (JSVal.vbool true, false, []) :=
  ⟨by decide, C8_setter_input_handling.2.2.2.1 (JSVal.vbool true)
    JSVal.vnull (by decide)⟩

/-- C9 counterexample: a progress report with `bytesTotal = 0` is not
suppressed.  `handleProgress(0, 0)` stores `0/0 = NaN` as the progress
fraction and still forwards the report to the superclass progress handler,
contradicting the claim that `total = 0` produces no progress event and
that no NaN fraction reaches listeners. -/
theorem C9_counterexample :
    handleProgress 0 0 = (JSNum.nan, [ProgEff.progressEvt 0 0]) := by
  simp [handleProgress, jsDiv]

/-- C9 amended: for `bytesTotal > 0` the stored fraction equals
`bytesLoaded / bytesTotal` and one progress report is forwarded; for
`bytesTotal = 0` the loader still forwards a progress report, and the
stored fraction is `NaN` when `bytesLoaded = 0` and a signed infinity
otherwise — i.e. the out-of-range value is propagated rather than the event
being dropped. -/
theorem C9_progress_fraction :
    (∀ loaded total : ℚ, 0 < total →
        handleProgress loaded total =
          (JSNum.fin (loaded / total), [ProgEff.progressEvt loaded total])) ∧
    (∀ loaded : ℚ, handleProgress loaded 0 =
        ((if loaded = 0 then JSNum.nan
          else if 0 < loaded then JSNum.inf else JSNum.neginf),
          [ProgEff.progressEvt loaded 0])) := by
  constructor
  · intro loaded total ht
    simp [handleProgress, jsDiv, ht.ne']
  · intro loaded
    simp [handleProgress, jsDiv]

/-- C9 witness: the positive-total conjunct applied at `loaded = 1`,
`total = 2`. -/
theorem C9_witness :
    (0 : ℚ) < 2 ∧
    handleProgress 1 2 = (JSNum.fin (1 / 2), [ProgEff.progressEvt 1 2]) :=
  ⟨by norm_num, C9_progress_fraction.1 1 2 (by norm_num)⟩

/-- C10: every falsy input (`undefined`, `null`, `NaN`, `0`, the empty
string, `false`) to `setPosition`, `setDuration` and the corresponding
property setters stores the number `0` instead of the given value; and
since `NaN`, `null` and `undefined` are all falsy, the value these setters
store is never `NaN`, `null` or `undefined`. -/
theorem C10_falsy_inputs_store_zero :
    (∀ v : JSVal, truthy v = false →
        setPositionJS v = JSVal.vnum 0 ∧ positionSetJS v = JSVal.vnum 0 ∧
        setDurationJS v = JSVal.vnum 0 ∧ durationSetJS v = JSVal.vnum 0) ∧
    (∀ v : JSVal,
        setPositionJS v ≠ JSVal.vnan ∧ setPositionJS v ≠ JSVal.vnull ∧
        setPositionJS v ≠ JSVal.vundef ∧ setDurationJS v ≠ JSVal.vnan ∧
        setDurationJS v ≠ JSVal.vnull ∧ setDurationJS v ≠ JSVal.vundef) := by
  constructor
  · intro v h
    simp [setPositionJS, positionSetJS, setDurationJS, durationSetJS,
      jsOrZero, h]
  · intro v
    unfold setPositionJS setDurationJS jsOrZero
    by_cases h : truthy v = true
    · rcases v with _ | _ | b | q | _ | t <;> simp_all [truthy]
    · simp [Bool.not_eq_true] at h
      simp [h]

/-- C10 witness: the falsy-input conjunct applied at `NaN`, and the
never-NaN conjunct applied at an arbitrary truthy number. -/
theorem C10_witness :
    truthy JSVal.vnan = false ∧
    setPositionJS JSVal.vnan = JSVal.vnum 0 ∧
    setPositionJS (JSVal.vnum 7) ≠ JSVal.vnan :=
  ⟨by decide, (C10_falsy_inputs_store_zero.1 JSVal.vnan (by decide)).1,
   (C10_falsy_inputs_store_zero.2 (JSVal.vnum 7)).1⟩

end SoundJS
